import Mathlib

/-
Verification of the magicbot-z1 SDK client interface surface against its
natural-language specification.  The definitions below are a shallow
embedding of the repository source: the enumerations and plain value types
of include/magic_type.h, the fault table of include/magic_err.h, the
declaration surface of the controller headers, and the reference logic of
the example programs (sensor_example.cpp, slam_example.cpp,
low_level_motion_example.cpp).  C++ unsigned arithmetic is modelled with
explicit reductions modulo 2^32 where overflow matters; double fields that
only ever carry exact values are modelled as rationals.
-/

namespace MagicZ1

/-! ### Enumerations from include/magic_type.h -/

/-- Error code enumeration from magic_type.h (enum ErrorCode, values 0..4). -/
inductive ErrorCode
  | OK
  | SERVICE_NOT_READY
  | TIMEOUT
  | INTERNAL_ERROR
  | SERVICE_ERROR
  deriving DecidableEq, Fintype, Repr

/-- Underlying integer of an ErrorCode member, as fixed in magic_type.h. -/
def ErrorCode.toCode : ErrorCode → Nat
  | .OK => 0
  | .SERVICE_NOT_READY => 1
  | .TIMEOUT => 2
  | .INTERNAL_ERROR => 3
  | .SERVICE_ERROR => 4

/-- Partial inverse of ErrorCode.toCode on the protocol-fixed codes. -/
def ErrorCode.ofCode : Nat → Option ErrorCode
  | 0 => some .OK
  | 1 => some .SERVICE_NOT_READY
  | 2 => some .TIMEOUT
  | 3 => some .INTERNAL_ERROR
  | 4 => some .SERVICE_ERROR
  | _ => none

/-- All ErrorCode members in declaration order. -/
def errorCodeAll : List ErrorCode :=
  [.OK, .SERVICE_NOT_READY, .TIMEOUT, .INTERNAL_ERROR, .SERVICE_ERROR]

/-- Status structure from magic_type.h: an error code paired with a message. -/
structure Status where
  code : ErrorCode
  message : String
  deriving DecidableEq, Repr

/-- Success test as applied uniformly by the example programs, which treat
status.code != ErrorCode::OK as a terminal failure for the call. -/
def statusIsOk (s : Status) : Bool :=
  s.code == ErrorCode.OK

/-- Battery state enumeration (enum class BatteryState, int8_t, values 0..8). -/
inductive BatteryState
  | UNKNOWN
  | GOOD
  | OVERHEAT
  | DEAD
  | OVERVOLTAGE
  | UNSPEC_FAILURE
  | COLD
  | WATCHDOG_TIMER_EXPIRE
  | SAFETY_TIMER_EXPIRE
  deriving DecidableEq, Fintype, Repr

/-- Underlying integer of a BatteryState member. -/
def BatteryState.toCode : BatteryState → Nat
  | .UNKNOWN => 0
  | .GOOD => 1
  | .OVERHEAT => 2
  | .DEAD => 3
  | .OVERVOLTAGE => 4
  | .UNSPEC_FAILURE => 5
  | .COLD => 6
  | .WATCHDOG_TIMER_EXPIRE => 7
  | .SAFETY_TIMER_EXPIRE => 8

/-- Partial inverse of BatteryState.toCode. -/
def BatteryState.ofCode : Nat → Option BatteryState
  | 0 => some .UNKNOWN
  | 1 => some .GOOD
  | 2 => some .OVERHEAT
  | 3 => some .DEAD
  | 4 => some .OVERVOLTAGE
  | 5 => some .UNSPEC_FAILURE
  | 6 => some .COLD
  | 7 => some .WATCHDOG_TIMER_EXPIRE
  | 8 => some .SAFETY_TIMER_EXPIRE
  | _ => none

/-- All BatteryState members in declaration order. -/
def batteryStateAll : List BatteryState :=
  [.UNKNOWN, .GOOD, .OVERHEAT, .DEAD, .OVERVOLTAGE, .UNSPEC_FAILURE, .COLD,
   .WATCHDOG_TIMER_EXPIRE, .SAFETY_TIMER_EXPIRE]

/-- Battery charge/discharge state (enum class PowerSupplyStatus, int8_t). -/
inductive PowerSupplyStatus
  | UNKNOWN
  | CHARGING
  | DISCHARGING
  | NOTCHARGING
  | FULL
  deriving DecidableEq, Fintype, Repr

/-- Underlying integer of a PowerSupplyStatus member. -/
def PowerSupplyStatus.toCode : PowerSupplyStatus → Nat
  | .UNKNOWN => 0
  | .CHARGING => 1
  | .DISCHARGING => 2
  | .NOTCHARGING => 3
  | .FULL => 4

/-- Partial inverse of PowerSupplyStatus.toCode. -/
def PowerSupplyStatus.ofCode : Nat → Option PowerSupplyStatus
  | 0 => some .UNKNOWN
  | 1 => some .CHARGING
  | 2 => some .DISCHARGING
  | 3 => some .NOTCHARGING
  | 4 => some .FULL
  | _ => none

/-- All PowerSupplyStatus members in declaration order. -/
def powerSupplyStatusAll : List PowerSupplyStatus :=
  [.UNKNOWN, .CHARGING, .DISCHARGING, .NOTCHARGING, .FULL]

/-- Gait mode enumeration (enum class GaitMode, int32_t, sparse codes). -/
inductive GaitMode
  | GAIT_PASSIVE
  | GAIT_RECOVERY_STAND
  | GAIT_BALANCE_STAND
  | GAIT_ARM_SWING_WALK
  | GAIT_HUMANOID_WALK
  | GAIT_LOWLEVL_SDK
  deriving DecidableEq, Fintype, Repr

/-- Underlying integer of a GaitMode member, as fixed in magic_type.h. -/
def GaitMode.toCode : GaitMode → Nat
  | .GAIT_PASSIVE => 0
  | .GAIT_RECOVERY_STAND => 1
  | .GAIT_BALANCE_STAND => 46
  | .GAIT_ARM_SWING_WALK => 78
  | .GAIT_HUMANOID_WALK => 79
  | .GAIT_LOWLEVL_SDK => 200

/-- Partial inverse of GaitMode.toCode on the protocol-fixed codes. -/
def GaitMode.ofCode : Nat → Option GaitMode
  | 0 => some .GAIT_PASSIVE
  | 1 => some .GAIT_RECOVERY_STAND
  | 46 => some .GAIT_BALANCE_STAND
  | 78 => some .GAIT_ARM_SWING_WALK
  | 79 => some .GAIT_HUMANOID_WALK
  | 200 => some .GAIT_LOWLEVL_SDK
  | _ => none

/-- All GaitMode members in declaration order. -/
def gaitModeAll : List GaitMode :=
  [.GAIT_PASSIVE, .GAIT_RECOVERY_STAND, .GAIT_BALANCE_STAND,
   .GAIT_ARM_SWING_WALK, .GAIT_HUMANOID_WALK, .GAIT_LOWLEVL_SDK]

/-- Trick action enumeration (enum class TrickAction, int32_t, sparse codes). -/
inductive TrickAction
  | ACTION_NONE
  | ACTION_SHAKE_LEFT_HAND_REACHOUT
  | ACTION_SHAKE_LEFT_HAND_WITHDRAW
  | ACTION_SHAKE_RIGHT_HAND_REACHOUT
  | ACTION_SHAKE_RIGHT_HAND_WITHDRAW
  | ACTION_SHAKE_HEAD
  | ACTION_LEFT_GREETING
  | ACTION_RIGHT_GREETING
  | ACTION_TRUN_LEFT_INTRODUCE_HIGH
  | ACTION_TRUN_LEFT_INTRODUCE_LOW
  | ACTION_TRUN_RIGHT_INTRODUCE_HIGH
  | ACTION_TRUN_RIGHT_INTRODUCE_LOW
  | ACTION_WELCOME
  deriving DecidableEq, Fintype, Repr

/-- Underlying integer of a TrickAction member, as fixed in magic_type.h. -/
def TrickAction.toCode : TrickAction → Nat
  | .ACTION_NONE => 0
  | .ACTION_SHAKE_LEFT_HAND_REACHOUT => 215
  | .ACTION_SHAKE_LEFT_HAND_WITHDRAW => 216
  | .ACTION_SHAKE_RIGHT_HAND_REACHOUT => 217
  | .ACTION_SHAKE_RIGHT_HAND_WITHDRAW => 218
  | .ACTION_SHAKE_HEAD => 220
  | .ACTION_LEFT_GREETING => 300
  | .ACTION_RIGHT_GREETING => 301
  | .ACTION_TRUN_LEFT_INTRODUCE_HIGH => 304
  | .ACTION_TRUN_LEFT_INTRODUCE_LOW => 305
  | .ACTION_TRUN_RIGHT_INTRODUCE_HIGH => 306
  | .ACTION_TRUN_RIGHT_INTRODUCE_LOW => 307
  | .ACTION_WELCOME => 340

/-- Partial inverse of TrickAction.toCode on the protocol-fixed codes. -/
def TrickAction.ofCode : Nat → Option TrickAction
  | 0 => some .ACTION_NONE
  | 215 => some .ACTION_SHAKE_LEFT_HAND_REACHOUT
  | 216 => some .ACTION_SHAKE_LEFT_HAND_WITHDRAW
  | 217 => some .ACTION_SHAKE_RIGHT_HAND_REACHOUT
  | 218 => some .ACTION_SHAKE_RIGHT_HAND_WITHDRAW
  | 220 => some .ACTION_SHAKE_HEAD
  | 300 => some .ACTION_LEFT_GREETING
  | 301 => some .ACTION_RIGHT_GREETING
  | 304 => some .ACTION_TRUN_LEFT_INTRODUCE_HIGH
  | 305 => some .ACTION_TRUN_LEFT_INTRODUCE_LOW
  | 306 => some .ACTION_TRUN_RIGHT_INTRODUCE_HIGH
  | 307 => some .ACTION_TRUN_RIGHT_INTRODUCE_LOW
  | 340 => some .ACTION_WELCOME
  | _ => none

/-- All TrickAction members in declaration order. -/
def trickActionAll : List TrickAction :=
  [.ACTION_NONE, .ACTION_SHAKE_LEFT_HAND_REACHOUT, .ACTION_SHAKE_LEFT_HAND_WITHDRAW,
   .ACTION_SHAKE_RIGHT_HAND_REACHOUT, .ACTION_SHAKE_RIGHT_HAND_WITHDRAW,
   .ACTION_SHAKE_HEAD, .ACTION_LEFT_GREETING, .ACTION_RIGHT_GREETING,
   .ACTION_TRUN_LEFT_INTRODUCE_HIGH, .ACTION_TRUN_LEFT_INTRODUCE_LOW,
   .ACTION_TRUN_RIGHT_INTRODUCE_HIGH, .ACTION_TRUN_RIGHT_INTRODUCE_LOW,
   .ACTION_WELCOME]

/-- TTS priority enumeration (enum class TtsPriority, int8_t). -/
inductive TtsPriority
  | HIGH
  | MIDDLE
  | LOW
  deriving DecidableEq, Fintype, Repr

/-- Underlying integer of a TtsPriority member. -/
def TtsPriority.toCode : TtsPriority → Nat
  | .HIGH => 0
  | .MIDDLE => 1
  | .LOW => 2

/-- Partial inverse of TtsPriority.toCode. -/
def TtsPriority.ofCode : Nat → Option TtsPriority
  | 0 => some .HIGH
  | 1 => some .MIDDLE
  | 2 => some .LOW
  | _ => none

/-- All TtsPriority members in declaration order. -/
def ttsPriorityAll : List TtsPriority := [.HIGH, .MIDDLE, .LOW]

/-- TTS same-priority scheduling mode (enum class TtsMode, int8_t). -/
inductive TtsMode
  | CLEARTOP
  | ADD
  | CLEARBUFFER
  deriving DecidableEq, Fintype, Repr

/-- Underlying integer of a TtsMode member. -/
def TtsMode.toCode : TtsMode → Nat
  | .CLEARTOP => 0
  | .ADD => 1
  | .CLEARBUFFER => 2

/-- Partial inverse of TtsMode.toCode. -/
def TtsMode.ofCode : Nat → Option TtsMode
  | 0 => some .CLEARTOP
  | 1 => some .ADD
  | 2 => some .CLEARBUFFER
  | _ => none

/-- All TtsMode members in declaration order. -/
def ttsModeAll : List TtsMode := [.CLEARTOP, .ADD, .CLEARBUFFER]

/-- SLAM mode enumeration (enum class SlamMode, codes 0, 1, 3). -/
inductive SlamMode
  | IDLE
  | MAPPING
  | LOCALIZATION
  deriving DecidableEq, Fintype, Repr

/-- Underlying integer of a SlamMode member, as fixed in magic_type.h. -/
def SlamMode.toCode : SlamMode → Nat
  | .IDLE => 0
  | .MAPPING => 1
  | .LOCALIZATION => 3

/-- Partial inverse of SlamMode.toCode on the protocol-fixed codes. -/
def SlamMode.ofCode : Nat → Option SlamMode
  | 0 => some .IDLE
  | 1 => some .MAPPING
  | 3 => some .LOCALIZATION
  | _ => none

/-- All SlamMode members in declaration order. -/
def slamModeAll : List SlamMode := [.IDLE, .MAPPING, .LOCALIZATION]

/-- Navigation mode enumeration (enum class NavMode, codes 0 and 13). -/
inductive NavMode
  | IDLE
  | GRID_MAP
  deriving DecidableEq, Fintype, Repr

/-- Underlying integer of a NavMode member, as fixed in magic_type.h. -/
def NavMode.toCode : NavMode → Nat
  | .IDLE => 0
  | .GRID_MAP => 13

/-- Partial inverse of NavMode.toCode on the protocol-fixed codes. -/
def NavMode.ofCode : Nat → Option NavMode
  | 0 => some .IDLE
  | 13 => some .GRID_MAP
  | _ => none

/-- All NavMode members in declaration order. -/
def navModeAll : List NavMode := [.IDLE, .GRID_MAP]

/-- Navigation status enumeration (enum class NavStatusType, values 0..6). -/
inductive NavStatusType
  | NONE
  | RUNNING
  | END_SUCCESS
  | END_FAILED
  | PAUSE
  | CONTINUE
  | CANCEL
  deriving DecidableEq, Fintype, Repr

/-- Underlying integer of a NavStatusType member. -/
def NavStatusType.toCode : NavStatusType → Nat
  | .NONE => 0
  | .RUNNING => 1
  | .END_SUCCESS => 2
  | .END_FAILED => 3
  | .PAUSE => 4
  | .CONTINUE => 5
  | .CANCEL => 6

/-- Partial inverse of NavStatusType.toCode. -/
def NavStatusType.ofCode : Nat → Option NavStatusType
  | 0 => some .NONE
  | 1 => some .RUNNING
  | 2 => some .END_SUCCESS
  | 3 => some .END_FAILED
  | 4 => some .PAUSE
  | 5 => some .CONTINUE
  | 6 => some .CANCEL
  | _ => none

/-- All NavStatusType members in declaration order. -/
def navStatusTypeAll : List NavStatusType :=
  [.NONE, .RUNNING, .END_SUCCESS, .END_FAILED, .PAUSE, .CONTINUE, .CANCEL]

/-! ### Declaration surface of the controller headers

The public methods of the facade and the six controllers, transcribed from
magic_robot.h, magic_audio.h, magic_motion.h, magic_sensor.h,
magic_slam_navigation.h and magic_state_monitor.h (constructors and
destructors omitted).  Each entry records the class, the method name, the
return type, and the operation category: lifecycle (Initialize / Shutdown /
Release), accessor (reference or plain value getters that perform no remote
call), subscription (callback registration and deregistration), or
synchronous command/query (blocking remote operations). -/

/-- Return type of a declared public method. -/
inductive RetKind
  | statusRet
  | boolRet
  | voidRet
  | stringRet
  | levelRet
  | refRet
  deriving DecidableEq, Repr

/-- Operation category of a declared public method. -/
inductive MethodKind
  | lifecycle
  | accessor
  | subscription
  | syncCommand
  deriving DecidableEq, Repr

/-- One public method declaration of the SDK surface. -/
structure ApiMethod where
  cls : String
  name : String
  ret : RetKind
  kind : MethodKind
  deriving DecidableEq, Repr

/-- Public methods of magic_robot.h, class MagicRobot. -/
def magicRobotMethods : List ApiMethod := [
  ⟨"MagicRobot", "Initialize", .boolRet, .lifecycle⟩,
  ⟨"MagicRobot", "Shutdown", .voidRet, .lifecycle⟩,
  ⟨"MagicRobot", "Release", .voidRet, .lifecycle⟩,
  ⟨"MagicRobot", "Connect", .statusRet, .syncCommand⟩,
  ⟨"MagicRobot", "Disconnect", .statusRet, .syncCommand⟩,
  ⟨"MagicRobot", "GetSDKVersion", .stringRet, .accessor⟩,
  ⟨"MagicRobot", "GetMotionControlLevel", .levelRet, .accessor⟩,
  ⟨"MagicRobot", "SetMotionControlLevel", .statusRet, .syncCommand⟩,
  ⟨"MagicRobot", "GetHighLevelMotionController", .refRet, .accessor⟩,
  ⟨"MagicRobot", "GetLowLevelMotionController", .refRet, .accessor⟩,
  ⟨"MagicRobot", "GetAudioController", .refRet, .accessor⟩,
  ⟨"MagicRobot", "GetSensorController", .refRet, .accessor⟩,
  ⟨"MagicRobot", "GetStateMonitor", .refRet, .accessor⟩,
  ⟨"MagicRobot", "GetSlamNavController", .refRet, .accessor⟩]

/-- Public methods of magic_audio.h, class AudioController. -/
def audioControllerMethods : List ApiMethod := [
  ⟨"AudioController", "Initialize", .boolRet, .lifecycle⟩,
  ⟨"AudioController", "Shutdown", .voidRet, .lifecycle⟩,
  ⟨"AudioController", "Play", .statusRet, .syncCommand⟩,
  ⟨"AudioController", "Stop", .statusRet, .syncCommand⟩,
  ⟨"AudioController", "SetVolume", .statusRet, .syncCommand⟩,
  ⟨"AudioController", "GetVolume", .statusRet, .syncCommand⟩,
  ⟨"AudioController", "OpenAudioStream", .statusRet, .syncCommand⟩,
  ⟨"AudioController", "CloseAudioStream", .statusRet, .syncCommand⟩,
  ⟨"AudioController", "SubscribeOriginAudioStream", .voidRet, .subscription⟩,
  ⟨"AudioController", "UnsubscribeOriginAudioStream", .voidRet, .subscription⟩,
  ⟨"AudioController", "SubscribeBfAudioStream", .voidRet, .subscription⟩,
  ⟨"AudioController", "UnsubscribeBfAudioStream", .voidRet, .subscription⟩,
  ⟨"AudioController", "OpenWakeupStatusStream", .statusRet, .syncCommand⟩,
  ⟨"AudioController", "CloseWakeupStatusStream", .statusRet, .syncCommand⟩,
  ⟨"AudioController", "SubscribeWakeupStatus", .voidRet, .subscription⟩,
  ⟨"AudioController", "UnsubscribeWakeupStatus", .voidRet, .subscription⟩]

/-- Public methods of magic_motion.h, class HighLevelMotionController. -/
def highLevelMotionMethods : List ApiMethod := [
  ⟨"HighLevelMotionController", "Initialize", .boolRet, .lifecycle⟩,
  ⟨"HighLevelMotionController", "Shutdown", .voidRet, .lifecycle⟩,
  ⟨"HighLevelMotionController", "SetGait", .statusRet, .syncCommand⟩,
  ⟨"HighLevelMotionController", "GetGait", .statusRet, .syncCommand⟩,
  ⟨"HighLevelMotionController", "ExecuteTrick", .statusRet, .syncCommand⟩,
  ⟨"HighLevelMotionController", "SendJoyStickCommand", .statusRet, .syncCommand⟩,
  ⟨"HighLevelMotionController", "HeadMove", .statusRet, .syncCommand⟩]

/-- Public methods of magic_motion.h, class LowLevelMotionController. -/
def lowLevelMotionMethods : List ApiMethod := [
  ⟨"LowLevelMotionController", "Initialize", .boolRet, .lifecycle⟩,
  ⟨"LowLevelMotionController", "Shutdown", .voidRet, .lifecycle⟩,
  ⟨"LowLevelMotionController", "SubscribeArmState", .voidRet, .subscription⟩,
  ⟨"LowLevelMotionController", "UnsubscribeArmState", .voidRet, .subscription⟩,
  ⟨"LowLevelMotionController", "PublishArmCommand", .statusRet, .syncCommand⟩,
  ⟨"LowLevelMotionController", "SubscribeLegState", .voidRet, .subscription⟩,
  ⟨"LowLevelMotionController", "UnsubscribeLegState", .voidRet, .subscription⟩,
  ⟨"LowLevelMotionController", "PublishLegCommand", .statusRet, .syncCommand⟩,
  ⟨"LowLevelMotionController", "SubscribeHeadState", .voidRet, .subscription⟩,
  ⟨"LowLevelMotionController", "UnsubscribeHeadState", .voidRet, .subscription⟩,
  ⟨"LowLevelMotionController", "PublishHeadCommand", .statusRet, .syncCommand⟩,
  ⟨"LowLevelMotionController", "SubscribeWaistState", .voidRet, .subscription⟩,
  ⟨"LowLevelMotionController", "UnsubscribeWaistState", .voidRet, .subscription⟩,
  ⟨"LowLevelMotionController", "PublishWaistCommand", .statusRet, .syncCommand⟩,
  ⟨"LowLevelMotionController", "SubscribeHandState", .voidRet, .subscription⟩,
  ⟨"LowLevelMotionController", "UnsubscribeHandState", .voidRet, .subscription⟩,
  ⟨"LowLevelMotionController", "PublishHandCommand", .statusRet, .syncCommand⟩,
  ⟨"LowLevelMotionController", "SubscribeBodyImu", .voidRet, .subscription⟩,
  ⟨"LowLevelMotionController", "UnsubscribeBodyImu", .voidRet, .subscription⟩]

/-- Public methods of magic_sensor.h, class SensorController. -/
def sensorControllerMethods : List ApiMethod := [
  ⟨"SensorController", "Initialize", .boolRet, .lifecycle⟩,
  ⟨"SensorController", "Shutdown", .voidRet, .lifecycle⟩,
  ⟨"SensorController", "OpenLidar", .statusRet, .syncCommand⟩,
  ⟨"SensorController", "CloseLidar", .statusRet, .syncCommand⟩,
  ⟨"SensorController", "OpenHeadRgbdCamera", .statusRet, .syncCommand⟩,
  ⟨"SensorController", "CloseHeadRgbdCamera", .statusRet, .syncCommand⟩,
  ⟨"SensorController", "OpenBinocularCamera", .statusRet, .syncCommand⟩,
  ⟨"SensorController", "CloseBinocularCamera", .statusRet, .syncCommand⟩,
  ⟨"SensorController", "SubscribeLidarImu", .voidRet, .subscription⟩,
  ⟨"SensorController", "SubscribeLidarPointCloud", .voidRet, .subscription⟩,
  ⟨"SensorController", "SubscribeHeadRgbdColorImage", .voidRet, .subscription⟩,
  ⟨"SensorController", "SubscribeHeadRgbdDepthImage", .voidRet, .subscription⟩,
  ⟨"SensorController", "SubscribeHeadRgbdCameraInfo", .voidRet, .subscription⟩,
  ⟨"SensorController", "SubscribeBinocularImage", .voidRet, .subscription⟩,
  ⟨"SensorController", "SubscribeBinocularCameraInfo", .voidRet, .subscription⟩]

/-- Public methods of magic_slam_navigation.h, class SlamNavController. -/
def slamNavControllerMethods : List ApiMethod := [
  ⟨"SlamNavController", "Initialize", .boolRet, .lifecycle⟩,
  ⟨"SlamNavController", "Shutdown", .voidRet, .lifecycle⟩,
  ⟨"SlamNavController", "ActivateSlamMode", .statusRet, .syncCommand⟩,
  ⟨"SlamNavController", "StartMapping", .statusRet, .syncCommand⟩,
  ⟨"SlamNavController", "CancelMapping", .statusRet, .syncCommand⟩,
  ⟨"SlamNavController", "SaveMap", .statusRet, .syncCommand⟩,
  ⟨"SlamNavController", "LoadMap", .statusRet, .syncCommand⟩,
  ⟨"SlamNavController", "DeleteMap", .statusRet, .syncCommand⟩,
  ⟨"SlamNavController", "GetMapPath", .statusRet, .syncCommand⟩,
  ⟨"SlamNavController", "GetAllMapInfo", .statusRet, .syncCommand⟩,
  ⟨"SlamNavController", "InitPose", .statusRet, .syncCommand⟩,
  ⟨"SlamNavController", "GetCurrentLocalizationInfo", .statusRet, .syncCommand⟩,
  ⟨"SlamNavController", "ActivateNavMode", .statusRet, .syncCommand⟩,
  ⟨"SlamNavController", "SetNavTarget", .statusRet, .syncCommand⟩,
  ⟨"SlamNavController", "PauseNavTask", .statusRet, .syncCommand⟩,
  ⟨"SlamNavController", "ResumeNavTask", .statusRet, .syncCommand⟩,
  ⟨"SlamNavController", "CancelNavTask", .statusRet, .syncCommand⟩,
  ⟨"SlamNavController", "GetNavTaskStatus", .statusRet, .syncCommand⟩,
  ⟨"SlamNavController", "OpenOdometryStream", .statusRet, .syncCommand⟩,
  ⟨"SlamNavController", "CloseOdometryStream", .statusRet, .syncCommand⟩,
  ⟨"SlamNavController", "SubscribeOdometry", .voidRet, .subscription⟩,
  ⟨"SlamNavController", "UnsubscribeOdometry", .voidRet, .subscription⟩,
  ⟨"SlamNavController", "GetPointCloudMap", .statusRet, .syncCommand⟩]

/-- Public methods of magic_state_monitor.h, class StateMonitor. -/
def stateMonitorMethods : List ApiMethod := [
  ⟨"StateMonitor", "Initialize", .boolRet, .lifecycle⟩,
  ⟨"StateMonitor", "Shutdown", .voidRet, .lifecycle⟩,
  ⟨"StateMonitor", "GetCurrentState", .statusRet, .syncCommand⟩]

/-- The full public method table of the SDK headers. -/
def apiMethods : List ApiMethod :=
  magicRobotMethods ++ audioControllerMethods ++ highLevelMotionMethods ++
  lowLevelMotionMethods ++ sensorControllerMethods ++ slamNavControllerMethods ++
  stateMonitorMethods
/-! ### Telemetry streams per controller

The stream names below are the method names with the Subscribe/Unsubscribe
verb removed; each list is transcribed from the corresponding header.
magic_sensor.h declares seven Subscribe methods and no Unsubscribe method,
while the repository sensor example calls an Unsubscribe counterpart for
each of the seven streams. -/

/-- Streams with a Subscribe method in magic_sensor.h. -/
def sensorSubscribeStreams : List String :=
  ["LidarImu", "LidarPointCloud", "HeadRgbdColorImage", "HeadRgbdDepthImage",
   "HeadRgbdCameraInfo", "BinocularImage", "BinocularCameraInfo"]

/-- Streams with an Unsubscribe method in magic_sensor.h: there are none. -/
def sensorUnsubscribeStreams : List String := []

/-- Streams whose Unsubscribe counterpart is called on the SensorController
by sensor_example.cpp (ToggleLidarImuSubscription and the other toggles). -/
def sensorExampleUnsubscribeCalls : List String :=
  ["LidarImu", "LidarPointCloud", "HeadRgbdColorImage", "HeadRgbdDepthImage",
   "HeadRgbdCameraInfo", "BinocularImage", "BinocularCameraInfo"]

/-- Streams with a Subscribe method in magic_audio.h. -/
def audioSubscribeStreams : List String :=
  ["OriginAudioStream", "BfAudioStream", "WakeupStatus"]

/-- Streams with an Unsubscribe method in magic_audio.h. -/
def audioUnsubscribeStreams : List String :=
  ["OriginAudioStream", "BfAudioStream", "WakeupStatus"]

/-- Streams with a Subscribe method in magic_motion.h (low-level controller). -/
def lowLevelSubscribeStreams : List String :=
  ["ArmState", "LegState", "HeadState", "WaistState", "HandState", "BodyImu"]

/-- Streams with an Unsubscribe method in magic_motion.h (low-level controller). -/
def lowLevelUnsubscribeStreams : List String :=
  ["ArmState", "LegState", "HeadState", "WaistState", "HandState", "BodyImu"]

/-- Streams with a Subscribe method in magic_slam_navigation.h. -/
def slamNavSubscribeStreams : List String := ["Odometry"]

/-- Streams with an Unsubscribe method in magic_slam_navigation.h. -/
def slamNavUnsubscribeStreams : List String := ["Odometry"]

/-! ### Timeout parameters of SlamNavController (magic_slam_navigation.h) -/

/-- One SlamNavController operation: whether its declaration has a timeout_ms
parameter, the default value the declaration gives it, and the default value
the adjacent doc comment states for it. -/
structure SlamNavOp where
  name : String
  hasTimeout : Bool
  declaredDefault : Option Nat
  docDefault : Option Nat
  deriving DecidableEq, Repr

/-- The operations of SlamNavController in declaration order, with their
timeout parameter data transcribed from magic_slam_navigation.h. -/
def slamNavOps : List SlamNavOp := [
  ⟨"ActivateSlamMode", true, some 5000, some 10000⟩,
  ⟨"StartMapping", true, some 5000, some 10000⟩,
  ⟨"CancelMapping", true, some 5000, some 10000⟩,
  ⟨"SaveMap", true, some 5000, some 10000⟩,
  ⟨"LoadMap", true, some 5000, some 10000⟩,
  ⟨"DeleteMap", true, some 5000, some 10000⟩,
  ⟨"GetMapPath", true, some 5000, some 10000⟩,
  ⟨"GetAllMapInfo", true, some 5000, some 10000⟩,
  ⟨"InitPose", true, some 5000, some 15000⟩,
  ⟨"GetCurrentLocalizationInfo", false, none, none⟩,
  ⟨"ActivateNavMode", true, some 5000, some 10000⟩,
  ⟨"SetNavTarget", true, some 5000, some 10000⟩,
  ⟨"PauseNavTask", false, none, none⟩,
  ⟨"ResumeNavTask", false, none, none⟩,
  ⟨"CancelNavTask", false, none, none⟩,
  ⟨"GetNavTaskStatus", false, none, none⟩,
  ⟨"OpenOdometryStream", false, none, none⟩,
  ⟨"CloseOdometryStream", false, none, none⟩,
  ⟨"SubscribeOdometry", false, none, none⟩,
  ⟨"UnsubscribeOdometry", false, none, none⟩,
  ⟨"GetPointCloudMap", true, some 5000, some 10000⟩]

/-! ### Fault code table from include/magic_err.h -/

/-- The static fault table error_code_map, transcribed entry by entry from
magic_err.h (keys are uint16_t values, written in the same hexadecimal). -/
def error_code_map : List (Nat × String) := [
  (0x0000, "No fault"),

  (0x1101, "Service invocation failed"),
  (0x1301, "Central control node lost"),
  (0x1302, "App node lost"),
  (0x1303, "Audio node lost"),
  (0x1304, "Stereo camera node lost"),
  (0x1305, "LIDAR node lost"),
  (0x1306, "SLAM node lost"),
  (0x1307, "Navigation node lost"),
  (0x1308, "AI node lost"),
  (0x1309, "Head node lost"),
  (0x130A, "Point cloud node lost"),

  (0x2201, "No LIDAR data received"),
  (0x2202, "No stereo camera data received"),
  (0x2203, "Stereo camera data error"),
  (0x2204, "Stereo camera initialization failed"),
  (0x220B, "No odometry data received"),
  (0x220C, "No IMU data received"),
  (0x2215, "Depth camera not detected"),

  (0x3101, "Failed to connect robot to app"),
  (0x3102, "Heartbeat lost - assertion failed"),

  (0x4201, "Failed to open head serial port"),
  (0x4202, "No head data received"),

  (0x5201, "No navigation TF data"),
  (0x5202, "No navigation map data"),
  (0x5203, "No navigation localization data"),
  (0x5204, "No navigation LIDAR data"),
  (0x5205, "No navigation depth camera data"),
  (0x5206, "No navigation multi-line LIDAR data"),
  (0x5207, "No navigation odometry data"),

  (0x6201, "SLAM localization error"),
  (0x6102, "No SLAM LIDAR data"),
  (0x6103, "No SLAM odometry data"),
  (0x6104, "SLAM map data error"),

  (0x7201, "LCM connection timeout"),

  (0x8201, "Left leg hardware error"),
  (0x8202, "Right leg hardware error"),
  (0x8203, "Left arm hardware error"),
  (0x8204, "Right arm hardware error"),
  (0x8205, "Waist hardware error"),
  (0x8206, "Head hardware error"),
  (0x8207, "Hand hardware error"),
  (0x8208, "Gripper hardware error"),
  (0x8209, "IMU hardware error"),
  (0x820A, "Power system hardware error"),
  (0x820B, "Leg force sensor hardware error"),
  (0x820C, "Arm force sensor hardware error"),

  (0x9201, "ECAT (EtherCAT) hardware error"),

  (0xA201, "Motion posture error"),
  (0xA202, "Foot position deviation during movement"),
  (0xA203, "Joint velocity error during motion")]

/-! ### SLAM map types from include/magic_type.h -/

/-- Mapping image data structure (struct MapImageData, .pgm format).  The
uint32_t fields are modelled as natural numbers holding their values; image
bytes are modelled as a list of byte values. -/
structure MapImageData where
  type : String
  width : Nat
  height : Nat
  max_gray_value : Nat
  image : List Nat
  deriving DecidableEq, Repr

/-- 3D pose structure (struct Pose3DEuler): position (x, y, z) and Euler
orientation (roll, pitch, yaw).  The doubles are modelled as rationals. -/
structure Pose3DEuler where
  position : Rat × Rat × Rat
  orientation : Rat × Rat × Rat
  deriving DecidableEq, Repr

/-- Mapping map metadata structure (struct MapMetaData). -/
structure MapMetaData where
  resolution : Rat
  origin : Pose3DEuler
  map_image_data : MapImageData
  deriving DecidableEq, Repr

/-- Single map information structure (struct MapInfo). -/
structure MapInfo where
  map_name : String
  map_meta_data : MapMetaData
  deriving DecidableEq, Repr

/-! ### SaveMapImageToFile from example slam_example.cpp -/

/-- ASCII byte values of the decimal digits of a natural number, most
significant digit first, as the C++ stream insertion operator renders an
unsigned integer. -/
def decimalBytes (n : Nat) : List Nat :=
  (Nat.toDigits 10 n).map Char.toNat

/-- Product of two uint32_t values as C++ computes it: the operands are
32-bit unsigned integers, so the product wraps modulo 2^32. -/
def uint32Mul (a b : Nat) : Nat :=
  (a * b) % (2 ^ 32)

/-- Byte content that SaveMapImageToFile streams into the .pgm file: the
header P5, newline, decimal width, one space, decimal height, newline,
decimal max gray value, newline, then the raw image bytes (slam_example.cpp
lines 257-262). -/
def pgmFileBytes (d : MapImageData) : List Nat :=
  [80, 53, 10] ++ decimalBytes d.width ++ [32] ++ decimalBytes d.height ++ [10]
    ++ decimalBytes d.max_gray_value ++ [10] ++ d.image

/-- SaveMapImageToFile from slam_example.cpp, modelled as the byte content of
the file it writes (none when it rejects the payload and writes nothing).
The size guard is the C++ comparison image_bytes.size() != width * height in
which width and height are uint32_t, so the product wraps modulo 2^32.  The
filename sanitisation and the file system itself are abstracted away; only
the produced content is modelled. -/
def saveMapImageToFile (map_info : MapInfo) : Option (List Nat) :=
  let map_data := map_info.map_meta_data.map_image_data
  if map_data.image.length = uint32Mul map_data.width map_data.height then
    some (pgmFileBytes map_data)
  else
    none

/-- The byte content the specification describes for the map file, stated
from the claim wording (ASCII header P5 and newline, decimal width, a space,
decimal height, newline, decimal max gray value, newline, then the raw image
bytes unchanged), kept separate from the source translation above so the two
can be compared. -/
def claimedPgmBytes (d : MapImageData) : List Nat :=
  [80, 53, 10] ++ decimalBytes d.width ++ [32] ++ decimalBytes d.height ++ [10]
    ++ decimalBytes d.max_gray_value ++ [10] ++ d.image

/-- A MapInfo on which the uint32 size guard of SaveMapImageToFile wraps:
width and height are 65536 so their uint32 product is 0, and the image is
empty. -/
def wrapMapInfo : MapInfo :=
  { map_name := "wrap",
    map_meta_data :=
      { resolution := 0,
        origin := { position := (0, 0, 0), orientation := (0, 0, 0) },
        map_image_data :=
          { type := "P5", width := 65536, height := 65536,
            max_gray_value := 255, image := [] } } }

/-- A small well-formed MapInfo: a 3 by 2 image of six bytes. -/
def smallMapInfo : MapInfo :=
  { map_name := "small",
    map_meta_data :=
      { resolution := 1,
        origin := { position := (0, 0, 0), orientation := (0, 0, 0) },
        map_image_data :=
          { type := "P5", width := 3, height := 2,
            max_gray_value := 255, image := [7, 0, 255, 1, 2, 3] } } }

/-- A MapInfo whose image size does not match width times height. -/
def mismatchedMapInfo : MapInfo :=
  { map_name := "bad",
    map_meta_data :=
      { resolution := 1,
        origin := { position := (0, 0, 0), orientation := (0, 0, 0) },
        map_image_data :=
          { type := "P5", width := 3, height := 2,
            max_gray_value := 255, image := [7, 0, 255] } } }

/-! ### ActivateSlamMode precondition (magic_slam_navigation.h)

The implementation of SlamNavController is not part of the repository (the
header is shipped with a prebuilt library), so the behaviour is modelled
from the specification. -/

/-- Modelled from the spec: the body of SlamNavController::ActivateSlamMode is
missing from the repository.  The spec states that LOCALIZATION requires a
non-empty map_path (an empty path is a caller error), and that
ActivateSlamMode(LOCALIZATION, "") must return a non-OK status without
activating localization; otherwise the requested mode is activated.  The
result pairs the returned Status with the SLAM mode after the call, given
the mode before the call. -/
def activateSlamMode (current : SlamMode) (mode : SlamMode) (map_path : String) :
    Status × SlamMode :=
  if mode = SlamMode.LOCALIZATION ∧ map_path = "" then
    ({ code := ErrorCode.INTERNAL_ERROR,
       message := "map_path must not be empty in localization mode" }, current)
  else
    ({ code := ErrorCode.OK, message := "" }, mode)

/-! ### SensorManager open/close guards from example sensor_example.cpp -/

/-- The local open/closed flags tracked by the example SensorManager
(sensors_state_ in sensor_example.cpp, keyed lidar, head_rgbd_camera and
binocular_camera, all initialised to false). -/
structure SensorsState where
  lidar : Bool
  head_rgbd_camera : Bool
  binocular_camera : Bool
  deriving DecidableEq, Repr

/-- Result of one SensorManager open/close call: the flags afterwards, the
boolean return value, and whether the underlying SensorController method was
invoked. -/
structure GuardResult where
  state : SensorsState
  ret : Bool
  invoked : Bool
  deriving DecidableEq, Repr

/-- SensorManager::OpenLidar from sensor_example.cpp.  The Status the
underlying controller would return is passed in as resp, since the
controller implementation is outside the repository. -/
def openLidar (st : SensorsState) (resp : Status) : GuardResult :=
  if st.lidar then
    { state := st, ret := true, invoked := false }
  else if resp.code ≠ ErrorCode.OK then
    { state := st, ret := false, invoked := true }
  else
    { state := { st with lidar := true }, ret := true, invoked := true }

/-- SensorManager::CloseLidar from sensor_example.cpp. -/
def closeLidar (st : SensorsState) (resp : Status) : GuardResult :=
  if !st.lidar then
    { state := st, ret := true, invoked := false }
  else if resp.code ≠ ErrorCode.OK then
    { state := st, ret := false, invoked := true }
  else
    { state := { st with lidar := false }, ret := true, invoked := true }

/-- SensorManager::OpenHeadRgbdCamera from sensor_example.cpp. -/
def openHeadRgbdCamera (st : SensorsState) (resp : Status) : GuardResult :=
  if st.head_rgbd_camera then
    { state := st, ret := true, invoked := false }
  else if resp.code ≠ ErrorCode.OK then
    { state := st, ret := false, invoked := true }
  else
    { state := { st with head_rgbd_camera := true }, ret := true, invoked := true }

/-- SensorManager::CloseHeadRgbdCamera from sensor_example.cpp. -/
def closeHeadRgbdCamera (st : SensorsState) (resp : Status) : GuardResult :=
  if !st.head_rgbd_camera then
    { state := st, ret := true, invoked := false }
  else if resp.code ≠ ErrorCode.OK then
    { state := st, ret := false, invoked := true }
  else
    { state := { st with head_rgbd_camera := false }, ret := true, invoked := true }

/-- SensorManager::OpenBinocularCamera from sensor_example.cpp. -/
def openBinocularCamera (st : SensorsState) (resp : Status) : GuardResult :=
  if st.binocular_camera then
    { state := st, ret := true, invoked := false }
  else if resp.code ≠ ErrorCode.OK then
    { state := st, ret := false, invoked := true }
  else
    { state := { st with binocular_camera := true }, ret := true, invoked := true }

/-- SensorManager::CloseBinocularCamera from sensor_example.cpp. -/
def closeBinocularCamera (st : SensorsState) (resp : Status) : GuardResult :=
  if !st.binocular_camera then
    { state := st, ret := true, invoked := false }
  else if resp.code ≠ ErrorCode.OK then
    { state := st, ret := false, invoked := true }
  else
    { state := { st with binocular_camera := false }, ret := true, invoked := true }

/-! ### Low-level command loop from example low_level_motion_example.cpp -/

/-- Joint counts fixed in magic_type.h. -/
def kHandJointNum : Nat := 6

/-- Number of dexterous hands. -/
def kHandNum : Nat := 2

/-- Number of head joints. -/
def kHeadJointNum : Nat := 2

/-- Number of arm joints (left and right arm together). -/
def kArmJointNum : Nat := 14

/-- Number of waist joints. -/
def kWaistJointNum : Nat := 1

/-- Number of leg joints. -/
def kLegJointNum : Nat := 12

/-- Control command for a single joint (struct SingleJointCommand).  The
member initialisers of magic_type.h give operation_mode 200 and zero for the
other fields; the doubles only ever carry exact values here and are
modelled as rationals. -/
structure SingleJointCommand where
  operation_mode : Int := 200
  pos : Rat := 0
  vel : Rat := 0
  toq : Rat := 0
  kp : Rat := 0
  kd : Rat := 0
  deriving DecidableEq, Repr

/-- All-joint control command (struct JointCommand). -/
structure JointCommand where
  timestamp : Int := 0
  joints : List SingleJointCommand := []
  deriving DecidableEq, Repr

/-- The arm command built by each iteration of the reference loop in
low_level_motion_example.cpp: joints.resize(kArmJointNum) fills the vector
with default-constructed entries, then the for loop over the kArmJointNum
indices sets operation_mode to 200 and pos, vel, toq, kp, kd to 0.0. -/
def buildArmCommand : JointCommand :=
  { timestamp := 0,
    joints :=
      (List.replicate kArmJointNum ({} : SingleJointCommand)).map
        (fun j => { j with operation_mode := 200, pos := 0, vel := 0,
                           toq := 0, kp := 0, kd := 0 }) }

/-- Observable event of the reference command loop: publishing an arm
command, or sleeping for a number of microseconds. -/
inductive LoopEvent
  | publishArm (cmd : JointCommand)
  | sleepUs (us : Nat)
  deriving DecidableEq, Repr

/-- Trace of the while(running) loop of low_level_motion_example.cpp for a
run in which the running flag stays set for n iterations: each iteration
builds the arm command, publishes it, and sleeps 2000 microseconds. -/
def lowLevelLoopTrace : Nat → List LoopEvent
  | 0 => []
  | Nat.succ n =>
      LoopEvent.publishArm buildArmCommand :: LoopEvent.sleepUs 2000 ::
        lowLevelLoopTrace n

/-! ### Theorems -/

/-- Claim C1: the status taxonomy consists of exactly five error codes with
the fixed integer values OK = 0, SERVICE_NOT_READY = 1, TIMEOUT = 2,
INTERNAL_ERROR = 3, SERVICE_ERROR = 4; a Status pairs one such code with a
message string; Status is the return type of every synchronous operation of
the SDK surface; and OK is the only success value, every non-OK code being
treated as a terminal failure by the reference callers. -/
theorem status_taxonomy :
    errorCodeAll.map ErrorCode.toCode = [0, 1, 2, 3, 4] ∧
    errorCodeAll.length = 5 ∧
    errorCodeAll.Nodup ∧
    (∀ c : ErrorCode, c ∈ errorCodeAll) ∧
    (∀ c : ErrorCode, ErrorCode.ofCode c.toCode = some c) ∧
    (∀ s : Status, s = { code := s.code, message := s.message }) ∧
    (∀ s : Status, statusIsOk s = true ↔ s.code = ErrorCode.OK) ∧
    apiMethods.all
      (fun m => !(m.kind == MethodKind.syncCommand) || (m.ret == RetKind.statusRet))
      = true := by
  refine ⟨rfl, rfl, by decide, ?_, ?_, ?_, ?_, by decide⟩
  · intro c; cases c <;> decide
  · intro c; cases c <;> rfl
  · intro s; rfl
  · intro s
    simp [statusIsOk]

/-- Claim C2: for every member of the protocol enumerations, converting the
member to its underlying integer and back yields the same member, and the
underlying integers are exactly the protocol-fixed, non-contiguous codes:
GaitMode uses 0, 1, 46, 78, 79, 200; TrickAction uses 0 and sparse codes in
215..340 with 215 and 216 distinct; SlamMode LOCALIZATION is 3; NavMode
GRID_MAP is 13; and the remaining enumerations carry their declared values. -/
theorem protocol_enum_roundtrip :
    (∀ e : GaitMode, GaitMode.ofCode e.toCode = some e) ∧
    (∀ e : TrickAction, TrickAction.ofCode e.toCode = some e) ∧
    (∀ e : SlamMode, SlamMode.ofCode e.toCode = some e) ∧
    (∀ e : NavMode, NavMode.ofCode e.toCode = some e) ∧
    (∀ e : BatteryState, BatteryState.ofCode e.toCode = some e) ∧
    (∀ e : PowerSupplyStatus, PowerSupplyStatus.ofCode e.toCode = some e) ∧
    (∀ e : NavStatusType, NavStatusType.ofCode e.toCode = some e) ∧
    (∀ e : TtsPriority, TtsPriority.ofCode e.toCode = some e) ∧
    (∀ e : TtsMode, TtsMode.ofCode e.toCode = some e) ∧
    (∀ e : ErrorCode, ErrorCode.ofCode e.toCode = some e) ∧
    gaitModeAll.map GaitMode.toCode = [0, 1, 46, 78, 79, 200] ∧
    (∀ e : GaitMode, e ∈ gaitModeAll) ∧
    trickActionAll.map TrickAction.toCode =
      [0, 215, 216, 217, 218, 220, 300, 301, 304, 305, 306, 307, 340] ∧
    (∀ e : TrickAction, e ∈ trickActionAll) ∧
    (trickActionAll.map TrickAction.toCode).Nodup ∧
    (trickActionAll.filter (fun e => e.toCode != 0)).all
      (fun e => 215 ≤ e.toCode && e.toCode ≤ 340) = true ∧
    TrickAction.toCode .ACTION_SHAKE_LEFT_HAND_REACHOUT ≠
      TrickAction.toCode .ACTION_SHAKE_LEFT_HAND_WITHDRAW ∧
    SlamMode.toCode .LOCALIZATION = 3 ∧
    NavMode.toCode .GRID_MAP = 13 ∧
    slamModeAll.map SlamMode.toCode = [0, 1, 3] ∧
    (∀ e : SlamMode, e ∈ slamModeAll) ∧
    navModeAll.map NavMode.toCode = [0, 13] ∧
    (∀ e : NavMode, e ∈ navModeAll) ∧
    batteryStateAll.map BatteryState.toCode = [0, 1, 2, 3, 4, 5, 6, 7, 8] ∧
    (∀ e : BatteryState, e ∈ batteryStateAll) ∧
    powerSupplyStatusAll.map PowerSupplyStatus.toCode = [0, 1, 2, 3, 4] ∧
    (∀ e : PowerSupplyStatus, e ∈ powerSupplyStatusAll) ∧
    navStatusTypeAll.map NavStatusType.toCode = [0, 1, 2, 3, 4, 5, 6] ∧
    (∀ e : NavStatusType, e ∈ navStatusTypeAll) ∧
    ttsPriorityAll.map TtsPriority.toCode = [0, 1, 2] ∧
    (∀ e : TtsPriority, e ∈ ttsPriorityAll) ∧
    ttsModeAll.map TtsMode.toCode = [0, 1, 2] ∧
    (∀ e : TtsMode, e ∈ ttsModeAll) := by
  and_intros <;> decide

/-- Claim C3, counterexample: the size guard of SaveMapImageToFile compares
image_bytes.size() with the uint32 product width * height, which wraps
modulo 2^32.  At width = height = 65536 with an empty image the guard
passes (the wrapped product is 0) and a file is written, although the image
size does not equal width * height — so, as stated, the claim that every
mismatched MapInfo is rejected is false. -/
theorem saveMapImage_size_guard_wraps :
    wrapMapInfo.map_meta_data.map_image_data.image.length ≠
      wrapMapInfo.map_meta_data.map_image_data.width *
        wrapMapInfo.map_meta_data.map_image_data.height ∧
    (saveMapImageToFile wrapMapInfo).isSome = true := by
  constructor
  · decide
  · rfl

/-- Claim C3, amended: SaveMapImageToFile writes a file whose byte content
is exactly the ASCII header P5, newline, decimal width, a space, decimal
height, newline, decimal max_gray_value, newline, then the raw image bytes
unchanged, precisely when the image size equals the product width * height
as computed in 32-bit unsigned arithmetic (it wraps modulo 2^32); it writes
no file otherwise.  When width * height does not overflow 32 bits this is
the plain size equality of the original claim. -/
theorem saveMapImage_pgm_content (m : MapInfo) :
    (m.map_meta_data.map_image_data.image.length =
        uint32Mul m.map_meta_data.map_image_data.width
          m.map_meta_data.map_image_data.height →
      saveMapImageToFile m =
        some (claimedPgmBytes m.map_meta_data.map_image_data)) ∧
    (m.map_meta_data.map_image_data.image.length ≠
        uint32Mul m.map_meta_data.map_image_data.width
          m.map_meta_data.map_image_data.height →
      saveMapImageToFile m = none) ∧
    (m.map_meta_data.map_image_data.width *
        m.map_meta_data.map_image_data.height < 2 ^ 32 →
      m.map_meta_data.map_image_data.image.length =
        m.map_meta_data.map_image_data.width *
          m.map_meta_data.map_image_data.height →
      saveMapImageToFile m =
        some (claimedPgmBytes m.map_meta_data.map_image_data)) := by
  refine ⟨?_, ?_, ?_⟩
  · intro h
    simp [saveMapImageToFile, h, pgmFileBytes, claimedPgmBytes]
  · intro h
    simp [saveMapImageToFile, h]
  · intro hlt h
    have hwrap : uint32Mul m.map_meta_data.map_image_data.width
        m.map_meta_data.map_image_data.height =
        m.map_meta_data.map_image_data.width *
          m.map_meta_data.map_image_data.height := by
      simpa [uint32Mul] using Nat.mod_eq_of_lt hlt
    simp [saveMapImageToFile, hwrap, h, pgmFileBytes, claimedPgmBytes]

/-- Claim C3, witness for the amended theorem: a well-formed 3 by 2 map is
written with the exact P5 header and image bytes, and a mismatched map is
rejected with no file written. -/
theorem saveMapImage_pgm_content_witness :
    saveMapImageToFile smallMapInfo =
      some (claimedPgmBytes smallMapInfo.map_meta_data.map_image_data) ∧
    saveMapImageToFile mismatchedMapInfo = none :=
  ⟨(saveMapImage_pgm_content smallMapInfo).1 (by decide),
   (saveMapImage_pgm_content mismatchedMapInfo).2.1 (by decide)⟩

/-- Claim C4: calling ActivateSlamMode with mode LOCALIZATION and an empty
map_path returns a Status whose code is not OK, and leaves the SLAM mode
unchanged (localization is not activated), whatever the mode before the
call.  The behaviour is modelled from the spec since the controller body is
not part of the repository. -/
theorem activateSlamMode_empty_path_rejected (current : SlamMode) :
    (activateSlamMode current SlamMode.LOCALIZATION ("")).1.code ≠
      ErrorCode.OK ∧
    (activateSlamMode current SlamMode.LOCALIZATION ("")).2 = current := by
  constructor <;> simp [activateSlamMode]

/-- Claim C4, witness: from the IDLE mode, the rejected call returns a
non-OK code and the mode stays IDLE. -/
theorem activateSlamMode_empty_path_rejected_witness :
    (activateSlamMode SlamMode.IDLE SlamMode.LOCALIZATION ("")).1.code ≠
      ErrorCode.OK ∧
    (activateSlamMode SlamMode.IDLE SlamMode.LOCALIZATION ("")).2 =
      SlamMode.IDLE :=
  activateSlamMode_empty_path_rejected SlamMode.IDLE

/-- Claim C5: for each sensor tracked by the example SensorManager, the
local open/closed flag is an invariant of every open/close call: a call
made while the flag already equals the target value returns true without
invoking the underlying controller and leaves the state unchanged; when the
controller is invoked and returns a non-OK status the flag is left
unchanged and the call returns false; and the flag changes only when the
controller was invoked and returned OK. -/
theorem sensor_open_close_guard (st : SensorsState) (resp : Status) :
    (st.lidar = true →
      openLidar st resp = { state := st, ret := true, invoked := false }) ∧
    (st.lidar = false → resp.code ≠ ErrorCode.OK →
      openLidar st resp = { state := st, ret := false, invoked := true }) ∧
    ((openLidar st resp).state ≠ st →
      (openLidar st resp).invoked = true ∧ resp.code = ErrorCode.OK) ∧
    (st.lidar = false →
      closeLidar st resp = { state := st, ret := true, invoked := false }) ∧
    (st.lidar = true → resp.code ≠ ErrorCode.OK →
      closeLidar st resp = { state := st, ret := false, invoked := true }) ∧
    ((closeLidar st resp).state ≠ st →
      (closeLidar st resp).invoked = true ∧ resp.code = ErrorCode.OK) ∧
    (st.head_rgbd_camera = true →
      openHeadRgbdCamera st resp = { state := st, ret := true, invoked := false }) ∧
    (st.head_rgbd_camera = false → resp.code ≠ ErrorCode.OK →
      openHeadRgbdCamera st resp = { state := st, ret := false, invoked := true }) ∧
    ((openHeadRgbdCamera st resp).state ≠ st →
      (openHeadRgbdCamera st resp).invoked = true ∧ resp.code = ErrorCode.OK) ∧
    (st.head_rgbd_camera = false →
      closeHeadRgbdCamera st resp = { state := st, ret := true, invoked := false }) ∧
    (st.head_rgbd_camera = true → resp.code ≠ ErrorCode.OK →
      closeHeadRgbdCamera st resp = { state := st, ret := false, invoked := true }) ∧
    ((closeHeadRgbdCamera st resp).state ≠ st →
      (closeHeadRgbdCamera st resp).invoked = true ∧ resp.code = ErrorCode.OK) ∧
    (st.binocular_camera = true →
      openBinocularCamera st resp = { state := st, ret := true, invoked := false }) ∧
    (st.binocular_camera = false → resp.code ≠ ErrorCode.OK →
      openBinocularCamera st resp = { state := st, ret := false, invoked := true }) ∧
    ((openBinocularCamera st resp).state ≠ st →
      (openBinocularCamera st resp).invoked = true ∧ resp.code = ErrorCode.OK) ∧
    (st.binocular_camera = false →
      closeBinocularCamera st resp = { state := st, ret := true, invoked := false }) ∧
    (st.binocular_camera = true → resp.code ≠ ErrorCode.OK →
      closeBinocularCamera st resp = { state := st, ret := false, invoked := true }) ∧
    ((closeBinocularCamera st resp).state ≠ st →
      (closeBinocularCamera st resp).invoked = true ∧ resp.code = ErrorCode.OK) := by
  obtain ⟨l, h, b⟩ := st
  by_cases hc : resp.code = ErrorCode.OK <;>
    cases l <;> cases h <;> cases b <;>
      simp [openLidar, closeLidar, openHeadRgbdCamera, closeHeadRgbdCamera,
            openBinocularCamera, closeBinocularCamera, hc]

/-- Claim C5, witness: opening an already-open lidar returns true without a
controller call; a failed controller call leaves the flag false and returns
false; a successful open from the closed state invoked the controller with
an OK status. -/
theorem sensor_open_close_guard_witness :
    openLidar { lidar := true, head_rgbd_camera := false, binocular_camera := false }
        { code := ErrorCode.OK, message := "" } =
      { state := { lidar := true, head_rgbd_camera := false, binocular_camera := false },
        ret := true, invoked := false } ∧
    openLidar { lidar := false, head_rgbd_camera := false, binocular_camera := false }
        { code := ErrorCode.TIMEOUT, message := "" } =
      { state := { lidar := false, head_rgbd_camera := false, binocular_camera := false },
        ret := false, invoked := true } ∧
    ((openLidar { lidar := false, head_rgbd_camera := false, binocular_camera := false }
        { code := ErrorCode.OK, message := "" }).invoked = true ∧
      ({ code := ErrorCode.OK, message := "" } : Status).code = ErrorCode.OK) := by
  refine ⟨?_, ?_, ?_⟩
  · exact (sensor_open_close_guard
      { lidar := true, head_rgbd_camera := false, binocular_camera := false }
      { code := ErrorCode.OK, message := "" }).1 rfl
  · exact (sensor_open_close_guard
      { lidar := false, head_rgbd_camera := false, binocular_camera := false }
      { code := ErrorCode.TIMEOUT, message := "" }).2.1 rfl (by decide)
  · exact (sensor_open_close_guard
      { lidar := false, head_rgbd_camera := false, binocular_camera := false }
      { code := ErrorCode.OK, message := "" }).2.2.1 (by decide)

/-- Claim C6: evaluation of the declaration surface at the failing streams.
The audio, low-level motion and SLAM/navigation controllers pair every
Subscribe method with a matching Unsubscribe method, but magic_sensor.h
declares seven Subscribe methods and not a single Unsubscribe method, while
the repository sensor example calls an Unsubscribe counterpart on the
SensorController for each of those seven streams — so the missing sensor
Unsubscribe declarations contradict the repository usage. -/
theorem sensor_subscribe_missing_unsubscribe :
    audioSubscribeStreams = audioUnsubscribeStreams ∧
    lowLevelSubscribeStreams = lowLevelUnsubscribeStreams ∧
    slamNavSubscribeStreams = slamNavUnsubscribeStreams ∧
    sensorUnsubscribeStreams = [] ∧
    sensorSubscribeStreams.length = 7 ∧
    sensorExampleUnsubscribeCalls = sensorSubscribeStreams ∧
    sensorExampleUnsubscribeCalls.all
      (fun s => !(sensorUnsubscribeStreams.contains s)) = true :=
  ⟨rfl, rfl, rfl, rfl, rfl, rfl, rfl⟩

/-- Claim C7, counterexample: no public method named SetPeriodMs is declared
on the low-level motion controller — nor anywhere else on the SDK surface —
so the claimed SetPeriodMs operation does not exist. -/
theorem lowLevel_no_setPeriodMs :
    lowLevelMotionMethods.all (fun m => !(m.name == "SetPeriodMs")) = true ∧
    apiMethods.all (fun m => !(m.name == "SetPeriodMs")) = true := by
  constructor <;> decide

/-- Claim C7, amended: the low-level motion controller exposes no period or
rate setting operation at all; its public methods are exactly Initialize,
Shutdown, the six Subscribe/Unsubscribe pairs and the five Publish command
methods, and the caller alone maintains the command cadence. -/
theorem lowLevel_methods_exact :
    lowLevelMotionMethods.map (fun m => m.name) =
      ["Initialize", "Shutdown",
       "SubscribeArmState", "UnsubscribeArmState", "PublishArmCommand",
       "SubscribeLegState", "UnsubscribeLegState", "PublishLegCommand",
       "SubscribeHeadState", "UnsubscribeHeadState", "PublishHeadCommand",
       "SubscribeWaistState", "UnsubscribeWaistState", "PublishWaistCommand",
       "SubscribeHandState", "UnsubscribeHandState", "PublishHandCommand",
       "SubscribeBodyImu", "UnsubscribeBodyImu"] ∧
    ¬ (("SetPeriodMs" : String) ∈ lowLevelMotionMethods.map (fun m => m.name)) := by
  constructor
  · rfl
  · decide

/-- Claim C8: the reference low-level control loop publishes, on every
iteration for as long as the running flag is set, one arm JointCommand of
exactly kArmJointNum = 14 single joint commands, each with operation_mode
200 and pos, vel, toq, kp, kd all zero, and then sleeps 2000 microseconds
before the next publish. -/
theorem lowLevel_loop_cadence :
    (∀ n : Nat, lowLevelLoopTrace n =
      (List.replicate n
        [LoopEvent.publishArm buildArmCommand, LoopEvent.sleepUs 2000]).flatten) ∧
    buildArmCommand.joints =
      List.replicate kArmJointNum
        { operation_mode := 200, pos := 0, vel := 0, toq := 0, kp := 0, kd := 0 } ∧
    kArmJointNum = 14 ∧
    buildArmCommand.joints.length = 14 ∧
    buildArmCommand.timestamp = 0 := by
  refine ⟨?_, by decide, rfl, by decide, rfl⟩
  intro n
  induction n with
  | zero => rfl
  | succ k ih =>
      simp only [lowLevelLoopTrace, List.replicate, List.flatten, ih]
      rfl

/-- Claim C9: every SlamNavController operation that takes a timeout
parameter — exactly the twelve listed operations — declares a default of
5000 milliseconds, while the adjacent doc comments state 10000 milliseconds
for each of them except InitPose, whose doc comment states 15000. -/
theorem slamNav_timeout_defaults :
    (slamNavOps.filter (fun op => op.hasTimeout)).map (fun op => op.name) =
      ["ActivateSlamMode", "StartMapping", "CancelMapping", "SaveMap",
       "LoadMap", "DeleteMap", "GetMapPath", "GetAllMapInfo", "InitPose",
       "ActivateNavMode", "SetNavTarget", "GetPointCloudMap"] ∧
    (slamNavOps.filter (fun op => op.hasTimeout)).all
      (fun op => op.declaredDefault == some 5000) = true ∧
    (slamNavOps.filter (fun op => op.hasTimeout && !(op.name == "InitPose"))).all
      (fun op => op.docDefault == some 10000) = true ∧
    slamNavOps.all
      (fun op => !(op.name == "InitPose") || (op.docDefault == some 15000)) = true := by
  refine ⟨rfl, ?_, ?_, ?_⟩ <;> decide

/-- Claim C10: the fault table error_code_map has exactly 51 entries with
pairwise distinct keys, maps key 0x0000 to the string No fault, and maps
every other key to a non-empty description. -/
theorem error_code_map_wellformed :
    error_code_map.length = 51 ∧
    (error_code_map.map Prod.fst).Nodup ∧
    List.lookup 0x0000 error_code_map = some ("No fault") ∧
    error_code_map.all (fun p => p.1 == 0 || !(p.2 == "")) = true := by
  refine ⟨rfl, ?_, rfl, ?_⟩ <;> decide

end MagicZ1
